import Mathlib

/-!
Shallow embedding of the two source files of this repository fragment:

* `tests/test_training.py` — an integration-test harness that builds
  command-line argument vectors for distributed training runs, launches them,
  and asserts on captured stdout markers and tensorboard event-file counts;
* `tools/eval_harness.py` — the `BigScienceLM` adapter class for an external
  evaluation harness.

Pure computations (argument-list construction, parallelism-degree selection,
flag extraction) are embedded as executable Lean functions.  Effectful pieces
are made explicit: the detected accelerator count, the filesystem seen by
`setUp`, and the observations of a training run (captured stdout, number of
files matched by the tensorboard glob) are parameters; Python exceptions
(`ValueError`, `AttributeError`) become `Except` errors.
-/

namespace MegDS

/-! ## Substring containment, modelling Python `assertIn(needle, haystack)` -/

/-- Does `needle` match at the front of `hay`?  (character-list version of
Python string slicing `hay[:len(needle)] == needle`). -/
def matchesFront : List Char → List Char → Bool
  | [], _ => true
  | _ :: _, [] => false
  | a :: as, b :: bs => a == b && matchesFront as bs

/-- Does `needle` occur contiguously anywhere inside `hay`?  This is Python
string containment `needle in hay` on character lists. -/
def occursIn (needle : List Char) : List Char → Bool
  | [] => needle.isEmpty
  | c :: cs => matchesFront needle (c :: cs) || occursIn needle cs

/-- Python `assertIn(needle, haystack)` for strings: the assertion passes
exactly when `needle` is a contiguous substring of `haystack`. -/
def assertInB (needle haystack : String) : Bool :=
  occursIn needle.toList haystack.toList

/-- `matchesFront needle hay` holds exactly when `needle` is a prefix-slice of
`hay` in the `List.IsPrefix` sense. -/
theorem matchesFront_iff (needle hay : List Char) :
    matchesFront needle hay = true ↔ needle <+: hay := by
  induction needle generalizing hay with
  | nil => simp [matchesFront]
  | cons a as ih =>
    cases hay with
    | nil => simp [matchesFront]
    | cons b bs =>
      simp only [matchesFront, Bool.and_eq_true, beq_iff_eq, ih bs,
        List.cons_prefix_cons]

/-- `occursIn needle hay` holds exactly when `needle` is an infix of `hay`. -/
theorem occursIn_iff (needle hay : List Char) :
    occursIn needle hay = true ↔ needle <:+: hay := by
  induction hay with
  | nil =>
    simp only [occursIn, List.isEmpty_iff, List.infix_nil]
  | cons c cs ih =>
    simp only [occursIn, Bool.or_eq_true, matchesFront_iff, ih,
      List.infix_cons_iff]

/-! ## `get_3d_dimensions` (tests/test_training.py, lines 42–58)

`get_gpu_count()` reads the environment; the detected accelerator count is the
explicit argument `num_gpus` here.  The function returns the triple
`(pp_size, tp_size, dp_size)`. -/

/-- Parallelism-degree selection of `get_3d_dimensions`: returns
`(pp_size, tp_size, dp_size)` from the detected accelerator count. -/
def get_3d_dimensions (num_gpus : Nat) : Nat × Nat × Nat :=
  let dp_size := 1
  if num_gpus ≥ 4 then (2, 2, dp_size)
  else if num_gpus ≥ 2 then (2, 1, dp_size)
  else (1, 1, dp_size)

/-- The worker-process count derived at lines 78–79 of the test file:
`num_gpus = pp_size * tp_size * dp_size` for the selected degrees. -/
def worker_count (num_gpus : Nat) : Nat :=
  let dims := get_3d_dimensions num_gpus
  dims.1 * dims.2.1 * dims.2.2

/-- Exhaustive case analysis of the degree-selection policy. -/
theorem get_3d_dimensions_cases (n : Nat) :
    get_3d_dimensions n = (2, 2, 1) ∨ get_3d_dimensions n = (2, 1, 1) ∨
      get_3d_dimensions n = (1, 1, 1) := by
  unfold get_3d_dimensions
  split
  · exact Or.inl rfl
  · split
    · exact Or.inr (Or.inl rfl)
    · exact Or.inr (Or.inr rfl)

/-! ## `MegDSTestTraining.get_variation_config` (lines 75–214)

The method reads three pieces of ambient state: `self.data_dir`,
`self.test_file_dir_str` and (through `get_3d_dimensions`) the detected
accelerator count.  They are gathered in `TestEnv`.  The two f-string blocks
are split on whitespace in the source, yielding exactly the token lists below,
in order. -/

/-- Ambient state read by `get_variation_config`. -/
structure TestEnv where
  data_dir : String
  test_file_dir_str : String
  num_gpus_detected : Nat
  deriving Repr, DecidableEq

/-- The `args` token list of the `"base"` variation (lines 88–133), after the
f-string is `.split()`.  `data_dir` here is already `self.data_dir + "/gpt2"`. -/
def base_args (tp_size pp_size n_samples exit_interval seq_len : Nat)
    (data_dir output_dir : String) : List String :=
  [ "--tensor-model-parallel-size", toString tp_size,
    "--pipeline-model-parallel-size", toString pp_size,
    "--distributed-backend", "nccl",
    "--num-layers", "2",
    "--hidden-size", "64",
    "--num-attention-heads", "2",
    "--seq-length", toString seq_len,
    "--max-position-embeddings", "1024",
    "--micro-batch-size", "1",
    "--rampup-batch-size", "2", "2", toString n_samples,
    "--global-batch-size", "16",
    "--train-samples", toString n_samples,
    "--optimizer", "adam",
    "--adam-beta1", "0.9",
    "--adam-beta2", "0.95",
    "--adam-eps", "1e-8",
    "--lr", "1e-4",
    "--lr-warmup-samples", "5",
    "--lr-decay-samples", "6",
    "--clip-grad", "1.0",
    "--weight-decay", "1e-1",
    "--fp16",
    "--log-interval", "5",
    "--save-interval", "10",
    "--eval-interval", "10",
    "--eval-iters", "5",
    "--checkpoint-activations",
    "--glu-activation", "geglu",
    "--exit-interval", toString exit_interval,
    "--merge-file", data_dir ++ "/gpt2-tiny-merges.txt",
    "--vocab-file", data_dir ++ "/gpt2-tiny-vocab.json",
    "--save", output_dir ++ "/checkpoints",
    "--load", output_dir ++ "/checkpoints",
    "--data-path", data_dir ++ "/meg-gpt2-openwebtext_text_document",
    "--codecarbon-dir", output_dir ++ "/codecarbon",
    "--tensorboard-dir", output_dir ++ "/tensorboard",
    "--tensorboard-queue-size", "5",
    "--log-timers-to-tensorboard",
    "--log-batch-size-to-tensorboard",
    "--log-validation-ppl-to-tensorboard" ]

/-- The `ds_args` token list of the `"base"` variation (lines 135–140). -/
def base_ds_args (test_file_dir_str : String) : List String :=
  [ "--deepspeed",
    "--deepspeed_config", test_file_dir_str ++ "/ds_config.json",
    "--zero-stage", "1",
    "--deepspeed-activation-checkpointing" ]

/-- The `args` token list of the `"cl"` (curriculum-learning) variation
(lines 156–201): no ramp-up, `--train-samples` is `n_samples*2`, and the
token-based schedule flags `--train-tokens` and `--lr-decay-tokens` appear. -/
def cl_args (tp_size pp_size n_samples exit_interval seq_len
    train_tokens lr_decay_tokens : Nat) (data_dir output_dir : String) :
    List String :=
  [ "--tensor-model-parallel-size", toString tp_size,
    "--pipeline-model-parallel-size", toString pp_size,
    "--distributed-backend", "nccl",
    "--num-layers", "2",
    "--hidden-size", "64",
    "--num-attention-heads", "2",
    "--seq-length", toString seq_len,
    "--max-position-embeddings", "1024",
    "--micro-batch-size", "1",
    "--global-batch-size", "16",
    "--train-samples", toString (n_samples * 2),
    "--train-tokens", toString train_tokens,
    "--optimizer", "adam",
    "--adam-beta1", "0.9",
    "--adam-beta2", "0.95",
    "--adam-eps", "1e-8",
    "--lr", "1e-4",
    "--lr-warmup-samples", "5",
    "--lr-decay-tokens", toString lr_decay_tokens,
    "--clip-grad", "1.0",
    "--weight-decay", "1e-1",
    "--fp16",
    "--log-interval", "5",
    "--save-interval", "10",
    "--eval-interval", "10",
    "--eval-iters", "5",
    "--checkpoint-activations",
    "--glu-activation", "geglu",
    "--exit-interval", toString exit_interval,
    "--merge-file", data_dir ++ "/gpt2-tiny-merges.txt",
    "--vocab-file", data_dir ++ "/gpt2-tiny-vocab.json",
    "--save", output_dir ++ "/checkpoints",
    "--load", output_dir ++ "/checkpoints",
    "--data-path", data_dir ++ "/meg-gpt2-openwebtext_text_document",
    "--codecarbon-dir", output_dir ++ "/codecarbon",
    "--tensorboard-dir", output_dir ++ "/tensorboard",
    "--tensorboard-queue-size", "5",
    "--log-timers-to-tensorboard",
    "--log-batch-size-to-tensorboard",
    "--log-validation-ppl-to-tensorboard" ]

/-- The `ds_args` token list of the `"cl"` variation (lines 203–208). -/
def cl_ds_args (test_file_dir_str : String) : List String :=
  [ "--deepspeed",
    "--deepspeed_config", test_file_dir_str ++ "/ds_config_cl.json",
    "--zero-stage", "1",
    "--deepspeed-activation-checkpointing" ]

/-- `MegDSTestTraining.get_variation_config(variation, output_dir)`.  Returns
`(args, ds_args, num_gpus)` on the two known variations and raises
`ValueError` (modelled as `Except.error`) on anything else, before any
subprocess could be launched. -/
def get_variation_config (env : TestEnv) (variation output_dir : String) :
    Except String (List String × List String × Nat) :=
  let data_dir := env.data_dir ++ "/gpt2"
  let dims := get_3d_dimensions env.num_gpus_detected
  let pp_size := dims.1
  let tp_size := dims.2.1
  let dp_size := dims.2.2
  let num_gpus := pp_size * tp_size * dp_size
  let n_samples := 300
  let exit_interval := 20
  let seq_len := 128
  if variation = "base" then
    .ok (base_args tp_size pp_size n_samples exit_interval seq_len
           data_dir output_dir,
         base_ds_args env.test_file_dir_str, num_gpus)
  else if variation = "cl" then
    let lr_decay_samples := 6
    let lr_decay_tokens := lr_decay_samples * seq_len
    let train_tokens := n_samples * seq_len
    .ok (cl_args tp_size pp_size n_samples exit_interval seq_len
           train_tokens lr_decay_tokens data_dir output_dir,
         cl_ds_args env.test_file_dir_str, num_gpus)
  else
    .error ("Don\x27t know of variation " ++ variation)

/-- The model/training argument list produced by `get_variation_config`
(first component), or `[]` when construction failed. -/
def configArgs (env : TestEnv) (variation output_dir : String) : List String :=
  match get_variation_config env variation output_dir with
  | .ok (args, _, _) => args
  | .error _ => []

/-- The worker-process count produced by `get_variation_config` (third
component), when construction succeeded. -/
def configWorkerCount (env : TestEnv) (variation output_dir : String) :
    Option Nat :=
  match get_variation_config env variation output_dir with
  | .ok (_, _, num_gpus) => some num_gpus
  | .error _ => none

/-- Look up the value token following the first occurrence of `flag` in an
argument list (how a CLI parser would read a `--flag value` pair). -/
def flagValue : List String → String → Option String
  | [], _ => none
  | [_], _ => none
  | a :: b :: rest, flag => if a = flag then some b else flagValue (b :: rest) flag

/-! ## `MegDSTestTraining.setUp` (lines 66–73): stale lock-file cleanup

The filesystem is modelled by the list of currently existing paths.
`os.path.exists` is list membership; `os.unlink` removes the path and raises
`FileNotFoundError` when it is absent.  `super().setUp()` is external
test-framework setup and performs no part of this cleanup step. -/

/-- The fused-kernels build lock path checked in `setUp` (line 71). -/
def meg_lock_file_path (repo_root_dir_str : String) : String :=
  repo_root_dir_str ++ "/megatron/fused_kernels/build/lock"

/-- `os.unlink(p)` on the set of existing paths: removes `p`, or raises
`FileNotFoundError` when `p` does not exist. -/
def os_unlink (fs : List String) (p : String) : Except String (List String) :=
  if p ∈ fs then .ok (fs.filter (fun q => q ≠ p))
  else .error ("FileNotFoundError: " ++ p)

/-- The cleanup step of `MegDSTestTraining.setUp`: unlink the lock file if it
exists, otherwise leave the filesystem untouched. -/
def setUpCleanup (repo_root_dir_str : String) (fs : List String) :
    Except String (List String) :=
  let p := meg_lock_file_path repo_root_dir_str
  if p ∈ fs then os_unlink fs p else .ok fs

/-! ## Assertion policy of `test_training_all` (lines 232–268)

Each run of the training subprocess is observed through its captured stdout
and the number of files matched by the glob `<output_dir>/tensorboard/events*`.
The identical assertion block appears verbatim in
`test_training_prefix_lm_all` (lines 342–378), so the same two predicates are
the assertion policy of every test scenario (`base`, `cl`, prefix-lm). -/

/-- What the test observes about one training run: the captured stdout and the
count of tensorboard event files matched by the glob. -/
structure RunObservation where
  stdout : String
  tensorboardFileCount : Nat

/-- The assertions executed after the first (fresh) run, lines 237–250: four
`assertIn` markers and an event-file count of exactly 1. -/
def firstRunPasses (output_dir : String) (obs : RunObservation) : Bool :=
  assertInB "DeepSpeed info" obs.stdout &&
  assertInB "consumed samples" obs.stdout &&
  assertInB ("Unable to find latest file at " ++ output_dir ++
    "/checkpoints/latest") obs.stdout &&
  assertInB "successfully saved checkpoint at iteration" obs.stdout &&
  (obs.tensorboardFileCount == 1)

/-- The assertions executed after the second (resume) run, lines 258–268:
three `assertIn` markers and an event-file count of exactly 2.  Note there is
no `assertIn("DeepSpeed info", ...)` in this block. -/
def secondRunPasses (output_dir : String) (obs : RunObservation) : Bool :=
  assertInB ("successfully loaded checkpoint from " ++ output_dir ++
    "/checkpoints") obs.stdout &&
  assertInB "consumed samples" obs.stdout &&
  assertInB "successfully saved checkpoint at iteration" obs.stdout &&
  (obs.tensorboardFileCount == 2)

/-- The first-run assertion policy as the spec words it: stdout must contain
the four markers and the glob must match exactly 1 file.  (Comparison
definition written from the claim, to be checked against `firstRunPasses`.) -/
def claimedFirstRunPolicy (output_dir : String) (obs : RunObservation) : Prop :=
  assertInB "DeepSpeed info" obs.stdout = true ∧
  assertInB "consumed samples" obs.stdout = true ∧
  assertInB ("Unable to find latest file at " ++ output_dir ++
    "/checkpoints/latest") obs.stdout = true ∧
  assertInB "successfully saved checkpoint at iteration" obs.stdout = true ∧
  obs.tensorboardFileCount = 1

/-- The second-run assertion policy as the spec words it: stdout must contain
"DeepSpeed info", "consumed samples", the loaded-checkpoint marker and the
saved-checkpoint marker, and the glob must match exactly 2 files.
(Comparison definition written from the claim.) -/
def claimedSecondRunPolicy (output_dir : String) (obs : RunObservation) : Prop :=
  assertInB "DeepSpeed info" obs.stdout = true ∧
  assertInB "consumed samples" obs.stdout = true ∧
  assertInB ("successfully loaded checkpoint from " ++ output_dir ++
    "/checkpoints") obs.stdout = true ∧
  assertInB "successfully saved checkpoint at iteration" obs.stdout = true ∧
  obs.tensorboardFileCount = 2

/-- The second-run assertion policy with the "DeepSpeed info" requirement
dropped — the policy the code actually enforces, in the wording of the claim. -/
def amendedSecondRunPolicy (output_dir : String) (obs : RunObservation) : Prop :=
  assertInB "consumed samples" obs.stdout = true ∧
  assertInB ("successfully loaded checkpoint from " ++ output_dir ++
    "/checkpoints") obs.stdout = true ∧
  assertInB "successfully saved checkpoint at iteration" obs.stdout = true ∧
  obs.tensorboardFileCount = 2

/-! ## `BigScienceLM` (tools/eval_harness.py, lines 17–40)

The class body references exactly one instance attribute, `self.tokenizer`,
and `__init__` (body `pass`) never assigns it, so the instance state is that
single optional attribute.  Reading an unassigned attribute raises
`AttributeError`, modelled as an `Except.error`. -/

/-- The externally supplied tokenizer object: `encode` takes the string and
the `add_special_tokens` keyword, `decode` takes a token-id list. -/
structure Tokenizer where
  encode : String → Bool → List Nat
  decode : List Nat → String

/-- Instance state of a `BigScienceLM` object: its `tokenizer` attribute, or
`none` when the attribute was never assigned. -/
structure BigScienceLM where
  tokenizer : Option Tokenizer

/-- `BigScienceLM.__init__(self, device, batch_size)` (defaults cuda and 1): the body is
`pass`, so both parameters are ignored and no attribute is assigned. -/
def BigScienceLM.init (device : String) (batch_size : Nat) : BigScienceLM :=
  { tokenizer := none }

/-- `BigScienceLM.tok_encode`: `return self.tokenizer.encode(string,
add_special_tokens=False)`; attribute lookup fails when `tokenizer` was never
assigned. -/
def BigScienceLM.tok_encode (self : BigScienceLM) (string : String) :
    Except String (List Nat) :=
  match self.tokenizer with
  | none => .error "AttributeError: tokenizer"
  | some tok => .ok (tok.encode string false)

/-- `BigScienceLM.tok_decode`: `return self.tokenizer.decode(tokens)`. -/
def BigScienceLM.tok_decode (self : BigScienceLM) (tokens : List Nat) :
    Except String String :=
  match self.tokenizer with
  | none => .error "AttributeError: tokenizer"
  | some tok => .ok (tok.decode tokens)

/-- `BigScienceLM._model_call(self, inps)`: the body is only a docstring, so
the method returns `None` (here `none`) for every input batch, never the
documented `[batch, sequence, vocab]` logits tensor. -/
def BigScienceLM.model_call (self : BigScienceLM) (inps : List (List Nat)) :
    Option (List (List (List Int))) :=
  none

/-- `BigScienceLM._model_generate(self, context, max_length, eos_token_id)`:
the body is `pass`, so the method returns `None` for every input. -/
def BigScienceLM.model_generate (self : BigScienceLM) (context : List Nat)
    (max_length : Nat) (eos_token_id : Nat) : Option (List Nat) :=
  none

/-! ## Claims about the parallelism-degree selection and worker count -/

/-- C2: for every detected accelerator count `n`, `get_3d_dimensions` selects
pipeline=2 and tensor=2 when `n ≥ 4`, pipeline=2 and tensor=1 when
`2 ≤ n < 4`, pipeline=1 and tensor=1 otherwise, and the data-parallel degree
is 1 in every case. -/
theorem get_3d_dimensions_policy (n : Nat) :
    (4 ≤ n → get_3d_dimensions n = (2, 2, 1)) ∧
    (2 ≤ n → n < 4 → get_3d_dimensions n = (2, 1, 1)) ∧
    (n < 2 → get_3d_dimensions n = (1, 1, 1)) ∧
    (get_3d_dimensions n).2.2 = 1 := by
  refine ⟨fun h4 => ?_, fun h2 h4 => ?_, fun h2 => ?_, ?_⟩
  · simp only [get_3d_dimensions]
    rw [if_pos h4]
  · simp only [get_3d_dimensions]
    rw [if_neg (by omega : ¬ n ≥ 4), if_pos h2]
  · simp only [get_3d_dimensions]
    rw [if_neg (by omega : ¬ n ≥ 4), if_neg (by omega : ¬ n ≥ 2)]
  · rcases get_3d_dimensions_cases n with h | h | h <;> rw [h]

/-- Witness for `get_3d_dimensions_policy` at accelerator counts 4, 3 and 1. -/
theorem get_3d_dimensions_policy_witness :
    (4 ≤ 4 ∧ get_3d_dimensions 4 = (2, 2, 1)) ∧
    (2 ≤ 3 ∧ 3 < 4 ∧ get_3d_dimensions 3 = (2, 1, 1)) ∧
    (1 < 2 ∧ get_3d_dimensions 1 = (1, 1, 1)) :=
  ⟨⟨by decide, (get_3d_dimensions_policy 4).1 (by decide)⟩,
   ⟨by decide, by decide, (get_3d_dimensions_policy 3).2.1 (by decide) (by decide)⟩,
   ⟨by decide, (get_3d_dimensions_policy 1).2.2.1 (by decide)⟩⟩

/-- C9: for every accelerator count, the worker-process count
`pp_size * tp_size * dp_size` derived from the degree-selection policy lies in
{1, 2, 4}: it is never 3 and never exceeds 4. -/
theorem worker_count_in_one_two_four (n : Nat) :
    (worker_count n = 1 ∨ worker_count n = 2 ∨ worker_count n = 4) ∧
    worker_count n ≠ 3 ∧ worker_count n ≤ 4 := by
  rcases get_3d_dimensions_cases n with h | h | h <;>
    simp [worker_count, h]

/-- Witness for `worker_count_in_one_two_four` at 8 detected accelerators. -/
theorem worker_count_in_one_two_four_witness :
    (worker_count 8 = 1 ∨ worker_count 8 = 2 ∨ worker_count 8 = 4) ∧
    worker_count 8 ≠ 3 ∧ worker_count 8 ≤ 4 :=
  worker_count_in_one_two_four 8

/-- C4: for every variation name other than "base" and "cl",
`get_variation_config` fails synchronously with a `ValueError` naming the
unknown variation, and no argument lists are returned. -/
theorem get_variation_config_unknown (env : TestEnv)
    (variation output_dir : String)
    (hb : variation ≠ "base") (hc : variation ≠ "cl") :
    get_variation_config env variation output_dir =
      .error ("Don\x27t know of variation " ++ variation) := by
  simp [get_variation_config, hb, hc]

/-- Witness for `get_variation_config_unknown` on the variation "bogus". -/
theorem get_variation_config_unknown_witness :
    ("bogus" : String) ≠ "base" ∧ ("bogus" : String) ≠ "cl" ∧
    get_variation_config ⟨"data", "testdir", 4⟩ "bogus" "out" =
      .error ("Don\x27t know of variation " ++ "bogus") :=
  ⟨by decide, by decide,
   get_variation_config_unknown ⟨"data", "testdir", 4⟩ "bogus" "out"
     (by decide) (by decide)⟩

/-- C3: for every known variation and output directory, the worker-process
count returned by `get_variation_config` equals the product
`pp_size * tp_size * dp_size` of the selected parallelism degrees, and the
data-parallel factor `dp_size` is 1. -/
theorem configWorkerCount_eq_product (env : TestEnv)
    (variation output_dir : String)
    (h : variation = "base" ∨ variation = "cl") :
    configWorkerCount env variation output_dir =
      some ((get_3d_dimensions env.num_gpus_detected).1 *
            (get_3d_dimensions env.num_gpus_detected).2.1 *
            (get_3d_dimensions env.num_gpus_detected).2.2) ∧
    (get_3d_dimensions env.num_gpus_detected).2.2 = 1 := by
  constructor
  · rcases h with h | h <;> subst h <;>
      simp [configWorkerCount, get_variation_config]
  · rcases get_3d_dimensions_cases env.num_gpus_detected with h | h | h <;>
      rw [h]

/-- Witness for `configWorkerCount_eq_product` on the "base" variation with 4
detected accelerators. -/
theorem configWorkerCount_eq_product_witness :
    (("base" : String) = "base" ∨ ("base" : String) = "cl") ∧
    (configWorkerCount ⟨"data", "testdir", 4⟩ "base" "out" =
      some ((get_3d_dimensions 4).1 * (get_3d_dimensions 4).2.1 *
            (get_3d_dimensions 4).2.2) ∧
     (get_3d_dimensions 4).2.2 = 1) :=
  ⟨Or.inl rfl,
   configWorkerCount_eq_product ⟨"data", "testdir", 4⟩ "base" "out"
     (Or.inl rfl)⟩

/-! ## Claims about the `setUp` cleanup -/

/-- C8: the cleanup step always completes without surfacing an error, its
result is the filesystem with the lock path removed, the lock file is gone
afterwards, and every other path is untouched (present afterwards exactly when
it was present before). -/
theorem setUpCleanup_removes_only_lock (repo_root_dir_str : String)
    (fs : List String) :
    setUpCleanup repo_root_dir_str fs =
      .ok (fs.filter (fun q => q ≠ meg_lock_file_path repo_root_dir_str)) ∧
    meg_lock_file_path repo_root_dir_str ∉
      fs.filter (fun q => q ≠ meg_lock_file_path repo_root_dir_str) ∧
    ∀ q : String,
      q ∈ fs.filter (fun q => q ≠ meg_lock_file_path repo_root_dir_str) ↔
        q ∈ fs ∧ q ≠ meg_lock_file_path repo_root_dir_str := by
  refine ⟨?_, by simp, fun q => by simp⟩
  by_cases hmem : meg_lock_file_path repo_root_dir_str ∈ fs
  · simp [setUpCleanup, os_unlink, hmem]
  · simp only [setUpCleanup, os_unlink]
    rw [if_neg hmem]
    congr 1
    refine (List.filter_eq_self.mpr ?_).symm
    intro a ha
    simp only [ne_eq, decide_not, Bool.not_eq_true', decide_eq_false_iff_not,
      Decidable.not_not]
    intro hEq
    exact absurd (hEq ▸ ha) hmem

/-- Witness for `setUpCleanup_removes_only_lock`: a filesystem holding the
lock file and one unrelated path. -/
theorem setUpCleanup_removes_only_lock_witness :
    setUpCleanup "/repo" ["/repo/megatron/fused_kernels/build/lock", "/repo/a"] =
      .ok ((["/repo/megatron/fused_kernels/build/lock", "/repo/a"] :
        List String).filter (fun q => q ≠ meg_lock_file_path "/repo")) ∧
    ("/repo/a" ∈ (["/repo/megatron/fused_kernels/build/lock", "/repo/a"] :
        List String).filter (fun q => q ≠ meg_lock_file_path "/repo") ↔
      "/repo/a" ∈ (["/repo/megatron/fused_kernels/build/lock", "/repo/a"] :
        List String) ∧ "/repo/a" ≠ meg_lock_file_path "/repo") :=
  ⟨(setUpCleanup_removes_only_lock "/repo"
      ["/repo/megatron/fused_kernels/build/lock", "/repo/a"]).1,
   (setUpCleanup_removes_only_lock "/repo"
      ["/repo/megatron/fused_kernels/build/lock", "/repo/a"]).2.2 "/repo/a"⟩

/-! ## Claims about the `BigScienceLM` adapter -/

/-- C7: with an externally supplied tokenizer attached to the instance,
`tok_encode` returns exactly the token-id sequence the tokenizer produces for
the string with special-token insertion disabled. -/
theorem tok_encode_delegates (tok : Tokenizer) (s : String) :
    BigScienceLM.tok_encode { tokenizer := some tok } s =
      .ok (tok.encode s false) :=
  rfl

/-- C10: the constructor ignores both parameters and assigns no attributes, so
on a freshly constructed instance both `tok_encode` and `tok_decode` fail with
an attribute-lookup error. -/
theorem init_ignores_params_and_encode_decode_fail
    (device : String) (batch_size : Nat) (device2 : String) (batch_size2 : Nat)
    (s : String) (ts : List Nat) :
    (BigScienceLM.init device batch_size).tokenizer = none ∧
    BigScienceLM.init device batch_size = BigScienceLM.init device2 batch_size2 ∧
    (BigScienceLM.init device batch_size).tok_encode s =
      .error "AttributeError: tokenizer" ∧
    (BigScienceLM.init device batch_size).tok_decode ts =
      .error "AttributeError: tokenizer" :=
  ⟨rfl, rfl, rfl, rfl⟩

/-- A concrete tokenizer object, used to exhibit the behavior of the
delegating method bodies. -/
def demoTokenizer : Tokenizer :=
  { encode := fun s _ => [s.length], decode := fun ts => toString ts.length }

/-- Counterexample to C6 as stated: `tok_encode` is not an unimplemented
placeholder — with a tokenizer attached it computes and returns that
encoding of the input under that tokenizer, here the non-empty result `[2]`. -/
theorem tok_encode_produces_result :
    BigScienceLM.tok_encode { tokenizer := some demoTokenizer } "hi" =
      .ok (demoTokenizer.encode "hi" false) ∧
    demoTokenizer.encode "hi" false = [2] :=
  ⟨rfl, rfl⟩

/-- C6 amended: the batched-forward-pass and generation bodies are
unimplemented placeholders producing no result on any input and any instance
state, while `tok_encode` and `tok_decode` have real bodies delegating to the
tokenizer attribute of the instance. -/
theorem placeholder_bodies (self : BigScienceLM) (inps : List (List Nat))
    (context : List Nat) (max_length eos_token_id : Nat)
    (tok : Tokenizer) (s : String) (ts : List Nat) :
    self.model_call inps = none ∧
    self.model_generate context max_length eos_token_id = none ∧
    BigScienceLM.tok_encode { tokenizer := some tok } s =
      .ok (tok.encode s false) ∧
    BigScienceLM.tok_decode { tokenizer := some tok } ts =
      .ok (tok.decode ts) :=
  ⟨rfl, rfl, rfl, rfl⟩

/-! ## Claims about the per-run assertion policy -/

/-- A resume-run observation that passes every assertion the code actually
makes after the second run, yet whose stdout never mentions "DeepSpeed info". -/
def resumeObs : RunObservation :=
  { stdout := "consumed samples: 32 | successfully loaded checkpoint from out/checkpoints | successfully saved checkpoint at iteration 20",
    tensorboardFileCount := 2 }

/-- Counterexample to C1 as stated: the second-run assertion block of the code
accepts `resumeObs`, but the claimed second-run policy (which demands a
"DeepSpeed info" marker) rejects it — the code never asserts "DeepSpeed info"
after the resume run. -/
theorem secondRun_policy_counterexample :
    secondRunPasses "out" resumeObs = true ∧
    ¬ claimedSecondRunPolicy "out" resumeObs := by
  constructor
  · decide
  · intro h
    exact absurd h.1 (by decide)

/-- C1 amended: for every output directory and run observation, the first-run
assertion block passes exactly when the claimed first-run policy holds, and
the second-run assertion block passes exactly when the claimed second-run
policy minus the "DeepSpeed info" requirement holds.  The identical assertion
blocks appear in both test bodies, so this is the policy of every scenario. -/
theorem run_assertion_policy (output_dir : String) (obs : RunObservation) :
    (firstRunPasses output_dir obs = true ↔
      claimedFirstRunPolicy output_dir obs) ∧
    (secondRunPasses output_dir obs = true ↔
      amendedSecondRunPolicy output_dir obs) := by
  constructor
  · simp only [firstRunPasses, claimedFirstRunPolicy, Bool.and_eq_true,
      beq_iff_eq, and_assoc]
  · simp only [secondRunPasses, amendedSecondRunPolicy, Bool.and_eq_true,
      beq_iff_eq, and_assoc]
    tauto

/-! ## Claims about the token-schedule flags of the "cl" variation -/

/-- Counterexample to C5 as stated: in the constructed "cl" argument list the
`--train-samples` value is 600 while `--train-tokens` is 38400, and
38400 is not 600 * 128 — the token budget is computed from `n_samples = 300`,
not from the doubled value passed under `--train-samples`. -/
theorem cl_train_tokens_counterexample :
    flagValue (configArgs ⟨"data", "testdir", 4⟩ "cl" "out")
      "--train-samples" = some "600" ∧
    flagValue (configArgs ⟨"data", "testdir", 4⟩ "cl" "out")
      "--train-tokens" = some "38400" ∧
    ¬ (38400 = 600 * 128) := by
  refine ⟨rfl, rfl, by decide⟩

/-- C5 amended: for every environment and output directory, the "cl" argument
list carries `--train-samples 600` (twice `n_samples = 300`),
`--train-tokens` equal to `n_samples * seq_len = 300 * 128`, and
`--lr-decay-tokens` equal to `lr_decay_samples * seq_len = 6 * 128`. -/
theorem cl_token_flags (env : TestEnv) (output_dir : String) :
    flagValue (configArgs env "cl" output_dir) "--train-samples" =
      some (toString (300 * 2)) ∧
    flagValue (configArgs env "cl" output_dir) "--train-tokens" =
      some (toString (300 * 128)) ∧
    flagValue (configArgs env "cl" output_dir) "--lr-decay-tokens" =
      some (toString (6 * 128)) := by
  rcases get_3d_dimensions_cases env.num_gpus_detected with h | h | h <;>
    · simp only [configArgs, get_variation_config, h]
      exact ⟨rfl, rfl, rfl⟩

end MegDS
